import Mathlib

/-!
Verification of the conversation-state machine, matching engine, acceptance
transaction and OTP attendance protocol of the "Your Chowk" WhatsApp labour
marketplace. The definitions below are shallow embeddings of the TypeScript
services; stateful database code is modelled by explicit state passing over
lists of records, and timestamps are integers (milliseconds).
-/

namespace YourChowk

/-! ## String helpers modelling Prisma / JavaScript primitives -/

/-- Prisma `startsWith` filter: prefix test on the character list. -/
def strStartsWith (s pre : String) : Bool :=
  pre.data.isPrefixOf s.data

/-- JavaScript `s.toLowerCase()`, modelled characterwise. -/
def toLowerStr (s : String) : String :=
  ⟨s.data.map Char.toLower⟩

/-- JavaScript `s.trim()`: strip leading and trailing whitespace. -/
def trimStr (s : String) : String :=
  ⟨((s.data.dropWhile Char.isWhitespace).reverse.dropWhile Char.isWhitespace).reverse⟩

/-- JavaScript `s.split(',')[0]`: the characters before the first comma. -/
def firstCommaSegment (s : String) : String :=
  ⟨s.data.takeWhile (fun c => c != ',')⟩

/-- Remove the first occurrence of `pat` from a character list (JavaScript
`s.replace(pat, '')` with a string pattern replaces only the first match). -/
def removeFirst (pat : List Char) : List Char → List Char
  | [] => []
  | c :: t => if pat.isPrefixOf (c :: t) then (c :: t).drop pat.length
              else c :: removeFirst pat t

/-- `phoneNumber.replace('@s.whatsapp.net', '')`. -/
def stripJidSuffix (s : String) : String :=
  ⟨removeFirst "@s.whatsapp.net".data s.data⟩

/-- Substring containment on character lists (helper for Prisma `contains`). -/
def listContainsSub (needle : List Char) : List Char → Bool
  | [] => needle.isEmpty
  | c :: t => needle.isPrefixOf (c :: t) || listContainsSub needle t

/-- Prisma `contains` with `mode: 'insensitive'`: case-insensitive substring test. -/
def strContainsCI (hay needle : String) : Bool :=
  listContainsSub (toLowerStr needle).data (toLowerStr hay).data

/-- JavaScript `a || b` on an optional string (null/undefined and "" are falsy). -/
def jsOrStr (a : Option String) (b : String) : String :=
  match a with
  | some s => if s = "" then b else s
  | none => b

/-- JavaScript `a || null` on an optional string ("" collapses to null). -/
def jsOrNull (a : Option String) : Option String :=
  match a with
  | some s => if s = "" then none else some s
  | none => none

/-- Prisma update field semantics: an `undefined` value leaves the column
unchanged, a present value overwrites it. -/
def jsUpd (new old : Option String) : Option String :=
  match new with
  | some v => some v
  | none => old

/-- Digit run value (for the JavaScript `parseInt` model). -/
def digitsVal (cs : List Char) : Nat :=
  cs.foldl (fun acc c => acc * 10 + (c.toNat - '0'.toNat)) 0

/-- Value of the leading digit run, `none` when there is no leading digit. -/
def leadingIntVal (cs : List Char) : Option Int :=
  let ds := cs.takeWhile Char.isDigit
  if ds.isEmpty then none else some (digitsVal ds : Int)

/-- JavaScript `parseInt(s, 10)` on an already-trimmed string: optional sign,
then the value of the leading decimal-digit run; `none` models `NaN`. -/
def parseIntJS (s : String) : Option Int :=
  match s.data with
  | '-' :: rest => (leadingIntVal rest).map (fun n => -n)
  | '+' :: rest => leadingIntVal rest
  | cs => leadingIntVal cs

/-! ## Legacy backend data model (src/unnamed/part_007, part_008,
src/backend/services/jobService.ts; schema described in src/backend/CONTEXT.md) -/

/-- A row of the `jobs` table of the legacy backend. -/
structure Job where
  id : String
  contractorPhone : String
  title : Option String
  skillRequired : String
  wage : String
  location : String
  workersNeeded : Int
  status : String
  deriving Repr, DecidableEq

/-- A row of the `applications` table of the legacy backend. -/
structure Application where
  jobId : String
  workerPhone : String
  status : String
  deriving Repr, DecidableEq

/-- The mutable store touched by the acceptance transaction. -/
structure MatchState where
  jobs : List Job
  applications : List Application
  deriving Repr, DecidableEq

/-- Result record of `acceptJob`: `{ success, message }`. -/
structure AcceptResult where
  success : Bool
  message : String
  deriving Repr, DecidableEq

def jobNotFoundMsg : String := "❌ Job not found or already filled."

def jobFilledMsg : String := "❌ Sorry, this job has already been filled."

def alreadyAppliedMsg : String := "⚠️ You have already accepted this job."

/-- JavaScript `job.title || job.skillRequired`. -/
def jobDisplayName (j : Job) : String :=
  jsOrStr j.title j.skillRequired

/-- The success message of `acceptJob` (matchingService, part_007). -/
def acceptSuccessMsg (j : Job) : String :=
  "✅ You have been assigned to the job!\n\n📋 Job: " ++ jobDisplayName j ++
  "\n💰 Wage: " ++ j.wage ++ "\n📍 Location: " ++ j.location ++
  "\n📞 Contractor: " ++ j.contractorPhone ++
  "\n\nPlease reach out to the contractor for further details."

/-- Job lookup of `acceptJob` (part_007, lines 122-136): an id shorter than a
full 36-character UUID is treated as a prefix and the first OPEN job whose id
starts with it is taken (`take: 1`); a full id uses `findUnique`. -/
def lookupJob (jobs : List Job) (jobId : String) : Option Job :=
  if jobId.length < 36 then
    (jobs.filter fun j => strStartsWith j.id jobId && j.status == "OPEN").head?
  else
    jobs.find? fun j => j.id == jobId

/-- `tx.application.findUnique` on the `(jobId, workerPhone)` key. -/
def findApplication (apps : List Application) (jobId workerPhone : String) :
    Option Application :=
  apps.find? fun a => a.jobId == jobId && a.workerPhone == workerPhone

/-- The application created by a successful acceptance (status `ACCEPTED`). -/
def acceptedApp (jobId workerPhone : String) : Application :=
  ⟨jobId, workerPhone, "ACCEPTED"⟩

/-- The job update of a successful acceptance: decrement `workersNeeded` and
set status to FILLED exactly when the capacity read inside the transaction
was at most one. -/
def acceptUpdateJob (capacityRead : Int) (j : Job) : Job :=
  { j with workersNeeded := j.workersNeeded - 1,
           status := if capacityRead ≤ 1 then "FILLED" else "OPEN" }

/-- `acceptJob` (part_007, lines 117-224): prefix-tolerant lookup, pre-check of
the status, then an atomic transaction that re-reads the job, re-checks status
and remaining capacity, rejects duplicate applications, creates the
application and decrements the capacity counter. Notification side effects
are queued outside the transaction and are not part of the modelled state. -/
def acceptJob (workerPhone jobId : String) (s : MatchState) :
    AcceptResult × MatchState :=
  match lookupJob s.jobs jobId with
  | none => (⟨false, jobNotFoundMsg⟩, s)
  | some job =>
    if job.status ≠ "OPEN" then (⟨false, jobFilledMsg⟩, s)
    else
      match s.jobs.find? (fun j => j.id == job.id) with
      | none => (⟨false, jobFilledMsg⟩, s)
      | some currentJob =>
        if currentJob.status ≠ "OPEN" ∨ currentJob.workersNeeded ≤ 0 then
          (⟨false, jobFilledMsg⟩, s)
        else if (findApplication s.applications job.id workerPhone).isSome then
          (⟨false, alreadyAppliedMsg⟩, s)
        else
          (⟨true, acceptSuccessMsg job⟩,
           { jobs := s.jobs.map fun j =>
               if j.id == job.id then acceptUpdateJob currentJob.workersNeeded j else j,
             applications := s.applications ++ [acceptedApp job.id workerPhone] })

/-- Run a sequence of `(workerPhone, jobId)` acceptance calls. -/
def runAccepts (cmds : List (String × String)) (s : MatchState) : MatchState :=
  cmds.foldl (fun st c => (acceptJob c.1 c.2 st).2) s

/-- Well-formedness of the store: job ids are pairwise distinct (the database
primary-key constraint). -/
def WF (s : MatchState) : Prop :=
  (s.jobs.map Job.id).Nodup

/-- Number of applications recorded for a given job. -/
def appsFor (apps : List Application) (jobId : String) : Nat :=
  (apps.filter fun a => a.jobId == jobId).length

/-- Capacity invariant: every job has a non-negative remaining capacity, and
remaining capacity plus recorded applications never exceeds the job's
original `workersNeeded` (given by `orig`). -/
def CapInv (orig : String → Int) (s : MatchState) : Prop :=
  ∀ j ∈ s.jobs, 0 ≤ j.workersNeeded ∧
    j.workersNeeded + (appsFor s.applications j.id : Int) ≤ orig j.id

/-! ### Lemmas about the acceptance transaction -/

theorem lookupJob_mem {jobs : List Job} {jid : String} {j : Job}
    (h : lookupJob jobs jid = some j) : j ∈ jobs := by
  unfold lookupJob at h
  split at h
  · exact List.mem_of_mem_filter (List.mem_of_mem_head? h)
  · exact List.mem_of_find?_eq_some h

theorem mem_id_inj {s : MatchState} (h : WF s) {a b : Job}
    (ha : a ∈ s.jobs) (hb : b ∈ s.jobs) (hid : a.id = b.id) : a = b :=
  List.inj_on_of_nodup_map h ha hb hid

theorem find?_job_self {s : MatchState} (h : WF s) {j : Job} (hj : j ∈ s.jobs) :
    s.jobs.find? (fun x => x.id == j.id) = some j := by
  cases hf : s.jobs.find? (fun x => x.id == j.id) with
  | none =>
      exact absurd (by simp : (fun (x : Job) => x.id == j.id) j = true)
        (List.find?_eq_none.mp hf j hj)
  | some x =>
      have hx : x ∈ s.jobs := List.mem_of_find?_eq_some hf
      have hpid : x.id = j.id := by
        have := List.find?_some hf
        simpa using this
      rw [mem_id_inj h hx hj hpid]

theorem appsFor_append_single (apps : List Application) (a : Application)
    (i : String) :
    appsFor (apps ++ [a]) i = appsFor apps i + (if a.jobId = i then 1 else 0) := by
  unfold appsFor
  rw [List.filter_append, List.length_append]
  by_cases hp : a.jobId = i <;> simp [hp]

/-- Full case analysis of `acceptJob` over a well-formed store: either the call
fails and the store is unchanged, or the looked-up job is OPEN with positive
remaining capacity, the worker had no prior application, and the store gains
one `ACCEPTED` application while that job's row is updated. -/
theorem acceptJob_cases (w jid : String) (s : MatchState) (h : WF s) :
    ((acceptJob w jid s).1.success = false ∧ (acceptJob w jid s).2 = s) ∨
    ∃ job, job ∈ s.jobs ∧ lookupJob s.jobs jid = some job ∧
      job.status = "OPEN" ∧ 0 < job.workersNeeded ∧
      findApplication s.applications job.id w = none ∧
      (acceptJob w jid s).1 = ⟨true, acceptSuccessMsg job⟩ ∧
      (acceptJob w jid s).2 =
        ⟨s.jobs.map (fun x =>
            if x.id == job.id then acceptUpdateJob job.workersNeeded x else x),
          s.applications ++ [acceptedApp job.id w]⟩ := by
  cases hlk : lookupJob s.jobs jid with
  | none => left; simp [acceptJob, hlk]
  | some job =>
      have hmem : job ∈ s.jobs := lookupJob_mem hlk
      have hfs := find?_job_self h hmem
      by_cases hst : job.status = "OPEN"
      · by_cases hcap : job.workersNeeded ≤ 0
        · left
          simp [acceptJob, hlk, hfs, hst, hcap]
        · cases hex : (findApplication s.applications job.id w).isSome with
          | true =>
              left
              simp [acceptJob, hlk, hfs, hst, hcap, hex]
          | false =>
              right
              refine ⟨job, hmem, rfl, hst, by omega, ?_, ?_, ?_⟩
              · exact Option.not_isSome_iff_eq_none.mp (by simp [hex])
              · simp [acceptJob, hlk, hfs, hst, hcap, hex]
              · simp [acceptJob, hlk, hfs, hst, hcap, hex]
      · left
        simp [acceptJob, hlk, hst]

theorem acceptUpdateJob_id (c : Int) (j : Job) : (acceptUpdateJob c j).id = j.id := rfl

theorem accept_preserves_WF (w jid : String) (s : MatchState) (h : WF s) :
    WF (acceptJob w jid s).2 := by
  rcases acceptJob_cases w jid s h with ⟨-, hs⟩ | ⟨job, -, -, -, -, -, -, hs⟩
  · rwa [hs]
  · rw [hs]
    unfold WF at h ⊢
    have : (s.jobs.map fun x =>
        if x.id == job.id then acceptUpdateJob job.workersNeeded x else x).map Job.id
        = s.jobs.map Job.id := by
      rw [List.map_map]
      refine List.map_congr_left ?_
      intro a _
      by_cases hid : a.id = job.id <;> simp [hid, acceptUpdateJob_id]
    rw [this]
    exact h

theorem accept_preserves_CapInv (orig : String → Int) (w jid : String)
    (s : MatchState) (h : WF s) (hc : CapInv orig s) :
    CapInv orig (acceptJob w jid s).2 := by
  rcases acceptJob_cases w jid s h with ⟨-, hs⟩ | ⟨job, hjm, -, -, hcap, -, -, hs⟩
  · rwa [hs]
  · rw [hs]
    intro j' hj'
    simp only [List.mem_map] at hj'
    obtain ⟨j0, hj0, hup⟩ := hj'
    obtain ⟨h0le, h0sum⟩ := hc j0 hj0
    by_cases hid : j0.id = job.id
    · have hj0eq : j0 = job := mem_id_inj h hj0 hjm hid
      subst hj0eq
      have : j' = acceptUpdateJob j0.workersNeeded j0 := by
        rw [← hup]; simp
      subst this
      constructor
      · simpa [acceptUpdateJob] using hcap
      · have hid' : (acceptUpdateJob j0.workersNeeded j0).id = j0.id := rfl
        rw [hid', appsFor_append_single]
        simp only [acceptedApp, if_pos rfl]
        have : (acceptUpdateJob j0.workersNeeded j0).workersNeeded
            = j0.workersNeeded - 1 := rfl
        rw [this]
        push_cast
        omega
    · have : j' = j0 := by rw [← hup]; simp [hid]
      subst this
      refine ⟨h0le, ?_⟩
      rw [appsFor_append_single]
      simp only [acceptedApp]
      rw [if_neg (fun hx => hid hx.symm)]
      simpa using h0sum

theorem runAccepts_preserves (orig : String → Int) (cmds : List (String × String)) :
    ∀ s : MatchState, WF s → CapInv orig s →
      WF (runAccepts cmds s) ∧ CapInv orig (runAccepts cmds s) := by
  induction cmds with
  | nil => intro s h hc; exact ⟨h, hc⟩
  | cons c rest ih =>
      intro s h hc
      have h1 := accept_preserves_WF c.1 c.2 s h
      have h2 := accept_preserves_CapInv orig c.1 c.2 s h hc
      simpa [runAccepts] using ih (acceptJob c.1 c.2 s).2 h1 h2

/-! ### Claim C1 -/

/-- C1: for every job, under any sequence of `acceptJob` calls the number of
applications recorded for the job never exceeds its original `workersNeeded`
(given by `orig` in a state satisfying the capacity invariant); once the
job's status is no longer OPEN or its remaining capacity is zero, every
further full-id `acceptJob` call on it fails with the "job already filled"
message and leaves the store — in particular the applications — unchanged;
and a prefix call for which no OPEN job matches (e.g. because the addressed
job is filled) fails with the "not found or already filled" message, also
changing nothing. -/
theorem acceptJob_capacity :
    (∀ (orig : String → Int) (cmds : List (String × String)) (s : MatchState),
       WF s → CapInv orig s →
       ∀ j ∈ (runAccepts cmds s).jobs,
         (appsFor (runAccepts cmds s).applications j.id : Int) ≤ orig j.id) ∧
    (∀ (s : MatchState) (j : Job) (w : String),
       WF s → j ∈ s.jobs → ¬ j.id.length < 36 →
       (j.status ≠ "OPEN" ∨ j.workersNeeded ≤ 0) →
       (acceptJob w j.id s).1.success = false ∧
       (acceptJob w j.id s).1.message = jobFilledMsg ∧
       (acceptJob w j.id s).2 = s) ∧
    (∀ (s : MatchState) (w pre : String),
       pre.length < 36 →
       (s.jobs.filter fun j => strStartsWith j.id pre && j.status == "OPEN") = [] →
       (acceptJob w pre s).1.success = false ∧
       (acceptJob w pre s).1.message = jobNotFoundMsg ∧
       (acceptJob w pre s).2 = s) := by
  refine ⟨?_, ?_, ?_⟩
  · intro orig cmds s h hc j hj
    obtain ⟨-, hinv⟩ := runAccepts_preserves orig cmds s h hc
    obtain ⟨h1, h2⟩ := hinv j hj
    omega
  · intro s j w h hj hlen hfilled
    have hlk : lookupJob s.jobs j.id = some j := by
      unfold lookupJob
      rw [if_neg hlen]
      exact find?_job_self h hj
    by_cases hst : j.status = "OPEN"
    · have hcap : j.workersNeeded ≤ 0 := by tauto
      refine ⟨?_, ?_, ?_⟩ <;>
        simp [acceptJob, hlk, find?_job_self h hj, hst, hcap]
    · refine ⟨?_, ?_, ?_⟩ <;> simp [acceptJob, hlk, hst]
  · intro s w pre hlen hfil
    have hlk : lookupJob s.jobs pre = none := by
      unfold lookupJob
      rw [if_pos hlen, hfil]
      rfl
    refine ⟨?_, ?_, ?_⟩ <;> simp [acceptJob, hlk]

def witOpenJob : Job :=
  ⟨"00000000-0000-0000-0000-000000000002", "92", none, "mason", "700", "Mumbai",
   1, "OPEN"⟩

def witS1 : MatchState := ⟨[witOpenJob], []⟩

def witCmds : List (String × String) := [("w1", witOpenJob.id), ("w2", witOpenJob.id)]

def witFilledJob : Job :=
  ⟨"00000000-0000-0000-0000-000000000001", "92", none, "mason", "700", "Mumbai",
   0, "FILLED"⟩

def witFS : MatchState := ⟨[witFilledJob], [⟨witFilledJob.id, "w1", "ACCEPTED"⟩]⟩

theorem acceptJob_capacity_witness :
    ((appsFor (runAccepts witCmds witS1).applications
        (acceptUpdateJob 1 witOpenJob).id : Int) ≤ 1) ∧
    ((acceptJob "w3" witFilledJob.id witFS).1.success = false ∧
     (acceptJob "w3" witFilledJob.id witFS).1.message = jobFilledMsg ∧
     (acceptJob "w3" witFilledJob.id witFS).2 = witFS) ∧
    ((acceptJob "w4" "0" witFS).1.success = false ∧
     (acceptJob "w4" "0" witFS).1.message = jobNotFoundMsg ∧
     (acceptJob "w4" "0" witFS).2 = witFS) :=
  ⟨acceptJob_capacity.1 (fun _ => 1) witCmds witS1 (by unfold WF; decide)
      (by unfold CapInv appsFor; decide) (acceptUpdateJob 1 witOpenJob) (by decide),
   acceptJob_capacity.2.1 witFS witFilledJob "w3" (by unfold WF; decide) (by decide)
      (by decide) (by decide),
   acceptJob_capacity.2.2 witFS "w4" "0" (by decide) (by decide)⟩

/-! ### Claim C10 -/

/-- Frame specification of a successful acceptance: exactly one job row is
rewritten; its capacity drops by one, its status becomes FILLED exactly when
the capacity read inside the transaction was 1 (and stays OPEN otherwise),
and every other field of the row is unchanged. -/
def AcceptFrameSpec (s : MatchState) (w jid : String) : Prop :=
  ∃ j, j ∈ s.jobs ∧ ∃ j' : Job,
    (acceptJob w jid s).2.jobs =
      s.jobs.map (fun x => if x.id == j.id then j' else x) ∧
    j'.workersNeeded = j.workersNeeded - 1 ∧
    (j'.status = "FILLED" ↔ j.workersNeeded = 1) ∧
    (j.workersNeeded ≠ 1 → j'.status = "OPEN") ∧
    j'.id = j.id ∧ j'.contractorPhone = j.contractorPhone ∧
    j'.title = j.title ∧ j'.skillRequired = j.skillRequired ∧
    j'.wage = j.wage ∧ j'.location = j.location ∧
    j.status = "OPEN" ∧ 0 < j.workersNeeded

/-- C10: on every successful `acceptJob` call the only job-row fields that
change are `workersNeeded` (decremented by one) and `status` (FILLED exactly
when the capacity read inside the transaction was 1, OPEN otherwise);
`contractorPhone`, `title`, `skillRequired`, `wage` and `location` are
unchanged. -/
theorem acceptJob_frame (s : MatchState) (w jid : String) (h : WF s)
    (hs : (acceptJob w jid s).1.success = true) :
    AcceptFrameSpec s w jid := by
  rcases acceptJob_cases w jid s h with ⟨hf, -⟩ | ⟨job, hjm, -, hst, hcap, -, hres, hs2⟩
  · rw [hf] at hs; cases hs
  · refine ⟨job, hjm, acceptUpdateJob job.workersNeeded job, ?_, rfl, ?_, ?_,
      rfl, rfl, rfl, rfl, rfl, rfl, hst, hcap⟩
    · rw [hs2]
      refine List.map_congr_left ?_
      intro a ha
      by_cases hid : a.id = job.id
      · have : a = job := mem_id_inj h ha hjm hid
        subst this; simp
      · simp [hid]
    · by_cases h1 : job.workersNeeded ≤ 1 <;>
        simp [acceptUpdateJob, h1] <;> omega
    · intro hne
      have h1 : ¬ job.workersNeeded ≤ 1 := by omega
      simp [acceptUpdateJob, h1]

theorem acceptJob_frame_witness :
    WF witS1 ∧ (acceptJob "w1" witOpenJob.id witS1).1.success = true ∧
    AcceptFrameSpec witS1 "w1" witOpenJob.id :=
  ⟨by unfold WF; decide, by decide,
   acceptJob_frame witS1 "w1" witOpenJob.id (by unfold WF; decide) (by decide)⟩

/-! ### Claim C4 -/

def cPrefJobA : Job := ⟨"a1", "92", some "T1", "mason", "700", "Mumbai", 1, "OPEN"⟩

def cPrefJobB : Job := ⟨"a2", "93", some "T2", "mason", "800", "Pune", 1, "OPEN"⟩

def cPrefState : MatchState := ⟨[cPrefJobA, cPrefJobB], []⟩

/-- C4 counterexample: two OPEN jobs with ids "a1" and "a2" share the prefix
"a"; the claim says the ambiguous lookup must resolve to "not found", but
`acceptJob` succeeds and applies the worker to the first matching job. -/
theorem prefix_ambiguity_counterexample :
    (acceptJob "w1" "a" cPrefState).1.success = true ∧
    (acceptJob "w1" "a" cPrefState).2.applications = [⟨"a1", "w1", "ACCEPTED"⟩] := by
  decide

/-- C4 (amended): when given an id shorter than a full 36-character id,
`acceptJob` selects the FIRST job in store order whose id starts with the
prefix and whose status is OPEN — also when several OPEN jobs share the
prefix; ambiguity does not resolve to "not found". -/
theorem acceptJob_prefix_takes_first (s : MatchState) (w pre : String) (j : Job)
    (h : WF s) (hlen : pre.length < 36)
    (hhead : (s.jobs.filter fun x => strStartsWith x.id pre && x.status == "OPEN").head?
      = some j)
    (hcap : 0 < j.workersNeeded)
    (hnoapp : findApplication s.applications j.id w = none) :
    (acceptJob w pre s).1.success = true ∧
    (acceptJob w pre s).2.applications = s.applications ++ [acceptedApp j.id w] := by
  have hmemf : j ∈ s.jobs.filter fun x => strStartsWith x.id pre && x.status == "OPEN" :=
    List.mem_of_mem_head? hhead
  have hmem : j ∈ s.jobs := List.mem_of_mem_filter hmemf
  have hst : j.status = "OPEN" := by
    have := List.of_mem_filter hmemf
    simp at this
    exact this.2
  have hlk : lookupJob s.jobs pre = some j := by
    unfold lookupJob
    rw [if_pos hlen]
    exact hhead
  have hcap' : ¬ j.workersNeeded ≤ 0 := by omega
  refine ⟨?_, ?_⟩ <;>
    simp [acceptJob, hlk, find?_job_self h hmem, hst, hcap', hnoapp]

theorem acceptJob_prefix_takes_first_witness :
    0 < cPrefJobA.workersNeeded ∧
    (acceptJob "w1" "a" cPrefState).1.success = true ∧
    (acceptJob "w1" "a" cPrefState).2.applications =
      cPrefState.applications ++ [acceptedApp cPrefJobA.id "w1"] :=
  ⟨by decide,
   acceptJob_prefix_takes_first cPrefState "w1" "a" cPrefJobA (by unfold WF; decide)
     (by decide) (by decide) (by decide) (by decide)⟩

/-! ### Claim C5 -/

def cDupJob : Job :=
  ⟨"00000000-0000-0000-0000-00000000000a", "92", none, "mason", "700", "Mumbai",
   1, "OPEN"⟩

def cDupS : MatchState := ⟨[cDupJob], []⟩

/-- C5 counterexample: for a capacity-1 job, the first accept by worker "w1"
succeeds and fills the job; the second accept by the same worker then fails
with the job-filled message, not with ALREADY_APPLIED as the claim states. -/
theorem duplicate_after_fill_counterexample :
    (acceptJob "w1" cDupJob.id cDupS).1.success = true ∧
    (acceptJob "w1" cDupJob.id ((acceptJob "w1" cDupJob.id cDupS).2)).1.message
      = jobFilledMsg ∧
    (acceptJob "w1" cDupJob.id ((acceptJob "w1" cDupJob.id cDupS).2)).1.message
      ≠ alreadyAppliedMsg := by
  decide

/-- C5 (amended): a second `acceptJob` call that resolves to a job for which
the worker already holds an application never succeeds and leaves the store —
in particular the job's capacity counter and status — unchanged; it fails with
ALREADY_APPLIED when the job is still OPEN with remaining capacity, and with
the job-filled message otherwise (e.g. when interleaved acceptances have
filled the job). -/
theorem acceptJob_duplicate_guard (s : MatchState) (w jid : String) (j : Job)
    (h : WF s) (hlk : lookupJob s.jobs jid = some j)
    (hex : (findApplication s.applications j.id w).isSome = true) :
    (acceptJob w jid s).1.success = false ∧
    (acceptJob w jid s).2 = s ∧
    ((j.status = "OPEN" ∧ 0 < j.workersNeeded) →
       (acceptJob w jid s).1.message = alreadyAppliedMsg) ∧
    (¬ (j.status = "OPEN" ∧ 0 < j.workersNeeded) →
       (acceptJob w jid s).1.message = jobFilledMsg) := by
  have hmem : j ∈ s.jobs := lookupJob_mem hlk
  have hfs := find?_job_self h hmem
  by_cases hst : j.status = "OPEN"
  · by_cases hcap : j.workersNeeded ≤ 0
    · refine ⟨?_, ?_, ?_, ?_⟩ <;>
        simp [acceptJob, hlk, hfs, hst, hcap]
    · refine ⟨?_, ?_, ?_, ?_⟩ <;>
        simp [acceptJob, hlk, hfs, hst, hcap, hex]
  · refine ⟨?_, ?_, ?_, ?_⟩ <;>
      simp [acceptJob, hlk, hfs, hst]

def cDup2Job : Job :=
  ⟨"00000000-0000-0000-0000-00000000000b", "92", none, "mason", "700", "Mumbai",
   2, "OPEN"⟩

def cDup2S : MatchState := ⟨[cDup2Job], [⟨cDup2Job.id, "w1", "ACCEPTED"⟩]⟩

theorem acceptJob_duplicate_guard_witness :
    (findApplication cDup2S.applications cDup2Job.id "w1").isSome = true ∧
    ((acceptJob "w1" cDup2Job.id cDup2S).1.success = false ∧
     (acceptJob "w1" cDup2Job.id cDup2S).2 = cDup2S ∧
     ((cDup2Job.status = "OPEN" ∧ 0 < cDup2Job.workersNeeded) →
        (acceptJob "w1" cDup2Job.id cDup2S).1.message = alreadyAppliedMsg) ∧
     (¬ (cDup2Job.status = "OPEN" ∧ 0 < cDup2Job.workersNeeded) →
        (acceptJob "w1" cDup2Job.id cDup2S).1.message = jobFilledMsg)) :=
  ⟨by decide,
   acceptJob_duplicate_guard cDup2S "w1" cDup2Job.id cDup2Job (by unfold WF; decide)
     (by decide) (by decide)⟩

/-! ## Legacy workers table and matching engine (part_007, part_008) -/

/-- Modelled from the spec: the creation default of the Identity's onboarded
flag. The schema file `backend/prisma/schema.prisma` is not among the
sources; the flag defaults to `false`, consistent with the `register_user`
tool's `isOnboarded: input.isOnboarded || false` and the dashboard treating
non-onboarded rows as "Pending". -/
def isOnboardedDefault : Bool := false

/-- A row of the legacy `workers` table (columns per src/backend/CONTEXT.md).
Modelled from the spec: the Identity data model's availability-from timestamp
("null or past = available, future = busy") and onboarded flag; the schema
file `backend/prisma/schema.prisma` itself is not among the sources, and the
legacy registration and matching code never reads or writes these two
columns, which keep their creation defaults (`isOnboardedDefault`/null). -/
structure LWorker where
  phoneNumber : String
  name : Option String
  skill : Option String
  location : Option String
  preferredLanguage : String
  idImageUrl : Option String
  role : String
  isOnboarded : Bool
  availableFrom : Option Int
  deriving Repr, DecidableEq

/-- `findMatchingWorkers` (part_007, lines 21-51): role, case-insensitive
skill containment, and case-insensitive containment of the first
comma-separated segment of the job's location. A null column never matches a
Prisma `contains` filter. -/
def findMatchingWorkers (workers : List LWorker) (job : Job) : List LWorker :=
  workers.filter fun w =>
    w.role == "worker" &&
    (match w.skill with
     | some sk => strContainsCI sk job.skillRequired
     | none => false) &&
    (match w.location with
     | some loc => strContainsCI loc (trimStr (firstCommaSegment job.location))
     | none => false)

/-- The skill-only fallback query of `matchAndNotify` (part_007, lines 61-72). -/
def skillOnlyWorkers (workers : List LWorker) (job : Job) : List LWorker :=
  workers.filter fun w =>
    w.role == "worker" &&
    (match w.skill with
     | some sk => strContainsCI sk job.skillRequired
     | none => false)

/-- The candidate set computed by `matchAndNotify` (part_007, lines 57-72):
the primary pass, or the skill-only fallback when the primary pass is empty. -/
def matchCandidates (workers : List LWorker) (job : Job) : List LWorker :=
  let primary := findMatchingWorkers workers job
  if primary.isEmpty then skillOnlyWorkers workers job else primary

/-! ### Claim C6 -/

def cBusyWorker : LWorker :=
  ⟨"9100000001", some "Ravi", some "mason", some "Andheri, Mumbai", "en", none,
   "worker", true, some 100⟩

def cBusyWorker2 : LWorker :=
  ⟨"9100000002", some "Shyam", some "mason", some "Pune", "en", none,
   "worker", true, some 100⟩

def cMatchJob : Job := ⟨"j1", "92", some "T", "mason", "700", "Mumbai", 1, "OPEN"⟩

/-- C6 counterexample: a worker whose availability timestamp lies in the
future (100, vs. current time 0) is still selected — by the primary pass in
the first store and by the skill-only fallback in the second — so neither
pass restricts to currently available workers as the claim states. -/
theorem matching_availability_counterexample :
    matchCandidates [cBusyWorker] cMatchJob = [cBusyWorker] ∧
    cBusyWorker.availableFrom = some 100 ∧
    matchCandidates [cBusyWorker2] cMatchJob = [cBusyWorker2] ∧
    findMatchingWorkers [cBusyWorker2] cMatchJob = [] ∧
    cBusyWorker2.availableFrom = some 100 ∧
    ¬ (100 : Int) ≤ 0 := by
  refine ⟨by decide, by decide, by decide, by decide, by decide, by decide⟩

theorem skillPred_true_iff (w : LWorker) (j : Job) :
    ((match w.skill with
      | some sk => strContainsCI sk j.skillRequired
      | none => false) = true) ↔
      ∃ sk, w.skill = some sk ∧ strContainsCI sk j.skillRequired = true := by
  cases w.skill <;> simp

theorem locPred_true_iff (w : LWorker) (j : Job) :
    ((match w.location with
      | some loc => strContainsCI loc (trimStr (firstCommaSegment j.location))
      | none => false) = true) ↔
      ∃ loc, w.location = some loc ∧
        strContainsCI loc (trimStr (firstCommaSegment j.location)) = true := by
  cases w.location <;> simp

/-- C6 (amended): the primary pass selects exactly the workers with role
`worker`, whose skill case-insensitively contains the job's required skill
and whose location case-insensitively contains the trimmed first
comma-separated segment of the job's location; when the primary pass is
empty, the fallback selects by role and skill alone. Neither pass reads the
availability timestamp: the candidate set is invariant under arbitrary
reassignment of every worker's `availableFrom`. -/
theorem matchCandidates_spec (workers : List LWorker) (job : Job) (w : LWorker) :
    (w ∈ matchCandidates workers job ↔
      (w ∈ workers ∧ w.role = "worker" ∧
       (∃ sk, w.skill = some sk ∧ strContainsCI sk job.skillRequired = true) ∧
       ((∃ loc, w.location = some loc ∧
           strContainsCI loc (trimStr (firstCommaSegment job.location)) = true) ∨
        findMatchingWorkers workers job = []))) ∧
    (∀ f : LWorker → Option Int,
      matchCandidates (workers.map fun x => { x with availableFrom := f x }) job
        = (matchCandidates workers job).map fun x => { x with availableFrom := f x }) := by
  constructor
  · by_cases hP : findMatchingWorkers workers job = []
    · unfold matchCandidates
      rw [if_pos (show (findMatchingWorkers workers job).isEmpty = true by
        simp [hP])]
      unfold skillOnlyWorkers
      rw [List.mem_filter]
      constructor
      · rintro ⟨hw, hb⟩
        simp only [Bool.and_eq_true, beq_iff_eq] at hb
        exact ⟨hw, hb.1, (skillPred_true_iff w job).mp hb.2, Or.inr hP⟩
      · rintro ⟨hw, hrole, hsk, -⟩
        refine ⟨hw, ?_⟩
        simp only [Bool.and_eq_true, beq_iff_eq]
        exact ⟨hrole, (skillPred_true_iff w job).mpr hsk⟩
    · unfold matchCandidates
      rw [if_neg (by simpa [List.isEmpty_iff] using hP)]
      unfold findMatchingWorkers
      rw [List.mem_filter]
      constructor
      · rintro ⟨hw, hb⟩
        simp only [Bool.and_eq_true, beq_iff_eq] at hb
        exact ⟨hw, hb.1.1, (skillPred_true_iff w job).mp hb.1.2,
          Or.inl ((locPred_true_iff w job).mp hb.2)⟩
      · rintro ⟨hw, hrole, hsk, hloc | hempty⟩
        · refine ⟨hw, ?_⟩
          simp only [Bool.and_eq_true, beq_iff_eq]
          exact ⟨⟨hrole, (skillPred_true_iff w job).mpr hsk⟩,
            (locPred_true_iff w job).mpr hloc⟩
        · exact absurd hempty hP
  · intro f
    have hfm : ∀ ws : List LWorker,
        findMatchingWorkers (ws.map fun x => { x with availableFrom := f x }) job
          = (findMatchingWorkers ws job).map fun x => { x with availableFrom := f x } := by
      intro ws
      unfold findMatchingWorkers
      rw [List.filter_map]
      rfl
    have hso :
        skillOnlyWorkers (workers.map fun x => { x with availableFrom := f x }) job
          = (skillOnlyWorkers workers job).map fun x => { x with availableFrom := f x } := by
      unfold skillOnlyWorkers
      rw [List.filter_map]
      rfl
    unfold matchCandidates
    rw [hfm workers, hso]
    by_cases hP : (findMatchingWorkers workers job).isEmpty
    · rw [if_pos hP, if_pos (by simpa using hP)]
    · rw [if_neg hP, if_neg (by simpa using hP)]

/-! ## Contractor job-posting flow (src/backend/services/jobService.ts) -/

/-- Accumulated `contextData` of the job-posting flow. -/
structure JobContext where
  title : Option String := none
  skillRequired : Option String := none
  wage : Option String := none
  location : Option String := none
  workersNeeded : Option Int := none
  deriving Repr, DecidableEq

/-- A `conversation_states` row of the job-posting flow. -/
structure JobFlowState where
  currentStep : String
  context : JobContext
  role : String
  deriving Repr, DecidableEq

/-- Outcome of one `handleJobPosting` call: the reply text, the conversation
state row for the phone after the call, the workers table after the call, and
the job created by the call (if any). -/
structure JobPostResult where
  reply : String
  state : Option JobFlowState
  workers : List LWorker
  createdJob : Option Job
  deriving Repr, DecidableEq

def startJobPrompt : String :=
  "📝 Let's post a new job!\n\nWhat is the job title?\n(e.g., \"House Painting Work\", \"Electrical Wiring\")"

def titleInvalidMsg : String :=
  "Please enter a valid job title (at least 3 characters)."

def titlePrompt (title : String) : String :=
  "Got it: \"" ++ title ++
  "\"\n\n🔧 What skill is required for this job?\n(e.g., painter, electrician, plumber, carpenter, mason)"

def skillInvalidMsg : String :=
  "Please enter a valid skill (e.g., painter, electrician)."

def wagePrompt : String :=
  "💰 What is the daily wage for this job?\n(e.g., \"500\", \"800/day\", \"₹600\")"

def wageInvalidMsg : String :=
  "Please enter the wage amount."

def jobLocationPrompt : String :=
  "📍 Where is the job location?\n(e.g., \"Andheri West, Mumbai\" or \"Sector 18, Noida\")"

def locationInvalidMsg : String :=
  "Please enter a valid location."

def workersPrompt : String :=
  "👷 How many workers do you need?\n(Enter a number, e.g., 1, 2, 5)"

def workersInvalidMsg : String :=
  "Please enter a valid number of workers (1-100)."

def jobStepCorruptMsg : String :=
  "Something went wrong. Type \"post job\" to start over."

def jobPostedReply (ctx : JobContext) : String :=
  "✅ Job posted successfully!\n\n📋 Job Details:\n• Title: " ++
  (ctx.title.getD "undefined") ++ "\n• Skill: " ++
  (ctx.skillRequired.getD "undefined") ++ "\n• Wage: " ++
  (ctx.wage.getD "undefined") ++ "\n• Location: " ++
  (ctx.location.getD "undefined") ++ "\n• Workers needed: " ++
  ((ctx.workersNeeded.map toString).getD "undefined") ++
  "\n\n🔔 Notifying matching workers now..."

/-- `createJob` (jobService.ts, lines 106-153): upserts the contractor into
the workers table, creates the Job row with status OPEN, and clears the
conversation state. The database-generated job id is passed as `newJobId`;
the asynchronous matching trigger is outside the modelled state. -/
def createJob (phone : String) (ctx : JobContext) (ws : List LWorker)
    (newJobId : String) : JobPostResult :=
  let cleanPhone := stripJidSuffix phone
  let ws' :=
    if (ws.find? fun w => w.phoneNumber == cleanPhone).isSome then
      ws.map fun w =>
        if w.phoneNumber == cleanPhone then { w with role := "contractor" } else w
    else
      ws ++ [⟨cleanPhone, some "Contractor", none, none, "en", none, "contractor",
             isOnboardedDefault, none⟩]
  { reply := jobPostedReply ctx,
    state := none,
    workers := ws',
    createdJob := some
      { id := newJobId,
        contractorPhone := cleanPhone,
        title := ctx.title,
        skillRequired := ctx.skillRequired.getD "",
        wage := ctx.wage.getD "",
        location := ctx.location.getD "",
        workersNeeded := ctx.workersNeeded.getD 1,
        status := "OPEN" } }

/-- `handleJobPosting` (jobService.ts, lines 20-101): dispatch on the current
step, validate the reply, accumulate the context and advance (or re-prompt on
validation failure, leaving the state untouched). -/
def handleJobPosting (phone text : String) (st : Option JobFlowState)
    (ws : List LWorker) (newJobId : String) : JobPostResult :=
  let currentStep := (st.map (·.currentStep)).getD "start_job"
  let ctx := (st.map (·.context)).getD {}
  if currentStep = "start_job" then
    { reply := startJobPrompt,
      state := some ⟨"awaiting_job_title", ctx, "contractor"⟩,
      workers := ws, createdJob := none }
  else if currentStep = "awaiting_job_title" then
    let title := trimStr text
    if title.length < 3 then
      { reply := titleInvalidMsg, state := st, workers := ws, createdJob := none }
    else
      { reply := titlePrompt title,
        state := some ⟨"awaiting_skill_required", { ctx with title := some title },
          "contractor"⟩,
        workers := ws, createdJob := none }
  else if currentStep = "awaiting_skill_required" then
    let skill := toLowerStr (trimStr text)
    if skill.length < 2 then
      { reply := skillInvalidMsg, state := st, workers := ws, createdJob := none }
    else
      { reply := wagePrompt,
        state := some ⟨"awaiting_wage", { ctx with skillRequired := some skill },
          "contractor"⟩,
        workers := ws, createdJob := none }
  else if currentStep = "awaiting_wage" then
    let wage := trimStr text
    if wage.length < 1 then
      { reply := wageInvalidMsg, state := st, workers := ws, createdJob := none }
    else
      { reply := jobLocationPrompt,
        state := some ⟨"awaiting_job_location", { ctx with wage := some wage },
          "contractor"⟩,
        workers := ws, createdJob := none }
  else if currentStep = "awaiting_job_location" then
    let location := trimStr text
    if location.length < 2 then
      { reply := locationInvalidMsg, state := st, workers := ws, createdJob := none }
    else
      { reply := workersPrompt,
        state := some ⟨"awaiting_workers_needed", { ctx with location := some location },
          "contractor"⟩,
        workers := ws, createdJob := none }
  else if currentStep = "awaiting_workers_needed" then
    match parseIntJS (trimStr text) with
    | none =>
      { reply := workersInvalidMsg, state := st, workers := ws, createdJob := none }
    | some count =>
      if count < 1 ∨ 100 < count then
        { reply := workersInvalidMsg, state := st, workers := ws, createdJob := none }
      else
        createJob phone { ctx with workersNeeded := some count } ws newJobId
  else
    { reply := jobStepCorruptMsg, state := st, workers := ws, createdJob := none }

/-! ### Claim C7 -/

/-- C7: at the workers-needed step, every reply whose parse is missing or
outside [1,100] returns the corrective re-prompt for the same step with the
conversation state, its accumulated context and the stores unchanged and no
job created; every reply parsing to an integer in [1,100] proceeds to job
creation with exactly that worker count, an OPEN status and a cleared
conversation state. -/
theorem workersNeeded_step_validation (phone text newJobId r : String)
    (ctx : JobContext) (ws : List LWorker) :
    ((parseIntJS (trimStr text) = none ∨
      (∃ k, parseIntJS (trimStr text) = some k ∧ (k < 1 ∨ 100 < k))) →
      handleJobPosting phone text (some ⟨"awaiting_workers_needed", ctx, r⟩) ws newJobId =
        { reply := workersInvalidMsg,
          state := some ⟨"awaiting_workers_needed", ctx, r⟩,
          workers := ws, createdJob := none }) ∧
    (∀ k : Int, parseIntJS (trimStr text) = some k → 1 ≤ k → k ≤ 100 →
      (handleJobPosting phone text (some ⟨"awaiting_workers_needed", ctx, r⟩)
          ws newJobId).state = none ∧
      ∃ j : Job,
        (handleJobPosting phone text (some ⟨"awaiting_workers_needed", ctx, r⟩)
            ws newJobId).createdJob = some j ∧
        j.workersNeeded = k ∧ j.status = "OPEN" ∧ j.title = ctx.title ∧
        j.contractorPhone = stripJidSuffix phone) := by
  constructor
  · rintro (hp | ⟨k, hp, hk⟩)
    · simp [handleJobPosting, hp]
    · have hk' : k < 1 ∨ 100 < k := hk
      simp [handleJobPosting, hp, hk']
  · intro k hp h1 h100
    have hk : ¬ (k < 1 ∨ 100 < k) := by omega
    refine ⟨?_, ?_⟩
    · simp [handleJobPosting, hp, hk, createJob]
    · refine ⟨⟨newJobId, stripJidSuffix phone, ctx.title, ctx.skillRequired.getD "",
        ctx.wage.getD "", ctx.location.getD "", k, "OPEN"⟩, ?_, rfl, rfl, rfl, rfl⟩
      simp [handleJobPosting, hp, hk, createJob]

theorem workersNeeded_step_validation_witness :
    (parseIntJS (trimStr "abc") = none ∨
     (∃ k, parseIntJS (trimStr "abc") = some k ∧ (k < 1 ∨ 100 < k))) ∧
    handleJobPosting "91@s.whatsapp.net" "abc"
        (some ⟨"awaiting_workers_needed", {}, "contractor"⟩) [] "J1" =
      { reply := workersInvalidMsg,
        state := some ⟨"awaiting_workers_needed", {}, "contractor"⟩,
        workers := [], createdJob := none } ∧
    parseIntJS (trimStr " 5 ") = some 5 ∧
    (handleJobPosting "91@s.whatsapp.net" " 5 "
        (some ⟨"awaiting_workers_needed", {}, "contractor"⟩) [] "J1").state = none ∧
    (∃ j : Job,
      (handleJobPosting "91@s.whatsapp.net" " 5 "
          (some ⟨"awaiting_workers_needed", {}, "contractor"⟩) [] "J1").createdJob
        = some j ∧
      j.workersNeeded = 5 ∧ j.status = "OPEN" ∧
      j.title = JobContext.title {} ∧
      j.contractorPhone = stripJidSuffix "91@s.whatsapp.net") :=
  ⟨Or.inl (by decide),
   (workersNeeded_step_validation "91@s.whatsapp.net" "abc" "J1" "contractor" {} []).1
     (Or.inl (by decide)),
   by decide,
   ((workersNeeded_step_validation "91@s.whatsapp.net" " 5 " "J1" "contractor" {} []).2
     5 (by decide) (by decide) (by decide)).1,
   ((workersNeeded_step_validation "91@s.whatsapp.net" " 5 " "J1" "contractor" {} []).2
     5 (by decide) (by decide) (by decide)).2⟩

/-! ## Worker registration flow (src/unnamed/part_008, lines 89-282) -/

/-- Accumulated `contextData` of the registration flow. -/
structure RegContext where
  preferredLanguage : Option String := none
  name : Option String := none
  skill : Option String := none
  location : Option String := none
  idImageUrl : Option String := none
  deriving Repr, DecidableEq

/-- A `conversation_states` row of the registration flow. -/
structure RegFlowState where
  currentStep : String
  context : RegContext
  role : String
  deriving Repr, DecidableEq

/-- Outcome of one `handleRegistration` call: reply, conversation state row
after the call, and workers table after the call. -/
structure RegResult where
  reply : String
  state : Option RegFlowState
  workers : List LWorker
  deriving Repr, DecidableEq

def regWelcomeMsg : String :=
  "👋 Welcome to Kaam Milega!\n\nI help daily-wage workers find jobs near them.\n\nLet's get you registered. What is your name?"

def regNameInvalidMsg : String :=
  "Please enter a valid name (at least 2 characters)."

def regNamePrompt (name : String) : String :=
  "Nice to meet you, " ++ name ++
  "! 🙏\n\nWhat is your primary skill?\nExamples: painter, electrician, plumber, carpenter, mason, welder, driver, cleaner\n\nYou can type your skill or choose from the list above."

def regSkillInvalidMsg : String :=
  "Please enter a valid skill (e.g., painter, electrician, plumber)."

def regLocationPrompt : String :=
  "📍 What is your work location or area?\n\nType the area/city name (e.g., \"Andheri, Mumbai\" or \"Sector 62, Noida\")."

def regLocationInvalidMsg : String :=
  "Please enter a valid location (e.g., \"Sector 62, Noida\")."

def regIdPrompt : String :=
  "📸 (Optional) Send a photo of your ID card (Aadhaar/PAN/Voter ID).\n\nThis helps contractors verify your identity.\n\nType \"skip\" to skip this step."

def regIdRepromptMsg : String :=
  "📸 Please send a photo of your ID card, or type \"skip\" to skip."

def regStepCorruptMsg : String :=
  "Something went wrong. Type \"hi\" to start over."

def regCompleteMsg (ctx : RegContext) : String :=
  "✅ Registration complete!\n\n📋 Your Details:\n• Name: " ++
  (ctx.name.getD "undefined") ++ "\n• Skill: " ++
  (ctx.skill.getD "undefined") ++ "\n• Location: " ++
  (ctx.location.getD "undefined") ++ "\n• ID: " ++
  (match jsOrNull ctx.idImageUrl with
   | some _ => "Uploaded ✓"
   | none => "Not provided") ++
  "\n\nYou will receive job notifications matching your skill and location. 🔔"

/-- `completeRegistration` (part_008, lines 236-276): strip the JID suffix
from the phone, upsert the worker row (the update leaves a column unchanged
for an absent context field, per Prisma `undefined` semantics; the create
path sets role `worker` and leaves the onboarded flag at its default), and
clear the conversation state. -/
def completeRegistration (phone : String) (ctx : RegContext)
    (detectedLang : String) (ws : List LWorker) : RegResult :=
  let cleanPhone := stripJidSuffix phone
  let lang := jsOrStr ctx.preferredLanguage (jsOrStr (some detectedLang) "en")
  let ws' :=
    if (ws.find? fun w => w.phoneNumber == cleanPhone).isSome then
      ws.map fun w =>
        if w.phoneNumber == cleanPhone then
          { w with name := jsUpd ctx.name w.name,
                   skill := jsUpd ctx.skill w.skill,
                   location := jsUpd ctx.location w.location,
                   preferredLanguage := lang,
                   idImageUrl := jsOrNull ctx.idImageUrl }
        else w
    else
      ws ++ [⟨cleanPhone, ctx.name, ctx.skill, ctx.location, lang,
             jsOrNull ctx.idImageUrl, "worker", isOnboardedDefault, none⟩]
  { reply := regCompleteMsg ctx, state := none, workers := ws' }

/-- `handleRegistration` (part_008, lines 116-190): dispatch on the current
step, validate the reply, accumulate the context and advance; the final step
accepts the literal tokens "skip" or "no" (after lower-casing and trimming)
and completes the registration, and re-prompts on any other text. -/
def handleRegistration (phone text : String) (st : Option RegFlowState)
    (detectedLang : String) (ws : List LWorker) : RegResult :=
  let currentStep := (st.map (·.currentStep)).getD "start"
  let ctx := (st.map (·.context)).getD {}
  if currentStep = "start" then
    { reply := regWelcomeMsg,
      state := some ⟨"awaiting_name",
        { ctx with preferredLanguage := some detectedLang }, "worker"⟩,
      workers := ws }
  else if currentStep = "awaiting_name" then
    let name := trimStr text
    if name.length < 2 then
      { reply := regNameInvalidMsg, state := st, workers := ws }
    else
      { reply := regNamePrompt name,
        state := some ⟨"awaiting_skill", { ctx with name := some name }, "worker"⟩,
        workers := ws }
  else if currentStep = "awaiting_skill" then
    let skill := toLowerStr (trimStr text)
    if skill.length < 2 then
      { reply := regSkillInvalidMsg, state := st, workers := ws }
    else
      { reply := regLocationPrompt,
        state := some ⟨"awaiting_location", { ctx with skill := some skill }, "worker"⟩,
        workers := ws }
  else if currentStep = "awaiting_location" then
    let location := trimStr text
    if location.length < 2 then
      { reply := regLocationInvalidMsg, state := st, workers := ws }
    else
      { reply := regIdPrompt,
        state := some ⟨"awaiting_id_image", { ctx with location := some location },
          "worker"⟩,
        workers := ws }
  else if currentStep = "awaiting_id_image" then
    let lowerText := trimStr (toLowerStr text)
    if lowerText = "skip" ∨ lowerText = "no" then
      completeRegistration phone ctx detectedLang ws
    else
      { reply := regIdRepromptMsg, state := st, workers := ws }
  else
    { reply := regStepCorruptMsg, state := st, workers := ws }

/-- Drive the registration flow through a list of text replies. -/
def runRegFlow (phone detectedLang : String) (replies : List String)
    (st : Option RegFlowState) (ws : List LWorker) :
    Option RegFlowState × List LWorker :=
  replies.foldl
    (fun acc t =>
      let r := handleRegistration phone t acc.1 detectedLang acc.2
      (r.state, r.workers))
    (st, ws)

/-! ### Claim C8 -/

/-- C8 counterexample: driving the flow from scratch with the valid replies
"hi", "Ravi", "mason", "Mumbai", "skip" terminates with a persisted worker
whose name, skill and location are populated and no residual conversation
state — but the onboarded flag of the persisted Identity is `false`, not
`true`: `completeRegistration` never sets it. -/
theorem registration_onboarded_counterexample :
    (runRegFlow "911" "en" ["hi", "Ravi", "mason", "Mumbai", "skip"] none []).1
      = none ∧
    (runRegFlow "911" "en" ["hi", "Ravi", "mason", "Mumbai", "skip"] none []).2.map
        LWorker.name = [some "Ravi"] ∧
    (runRegFlow "911" "en" ["hi", "Ravi", "mason", "Mumbai", "skip"] none []).2.map
        LWorker.isOnboarded = [false] := by
  refine ⟨by decide, by decide, by decide⟩

/-- C8 (amended): for every sequence of valid replies (any first message, a
name of trimmed length ≥ 2, a skill of trimmed length ≥ 2, a location of
trimmed length ≥ 2, then the literal "skip"/"no"), the onboarding flow run
against a store with no row for the phone terminates with a persisted
Identity whose name, skill and location fields are populated (trimmed, the
skill lower-cased) with role `worker`, and with no residual conversation
state row; the flow does NOT set the onboarded flag, which keeps its creation
default `false`. -/
theorem registration_flow_terminates (phone lang r0 nm sk loc fin : String)
    (ws : List LWorker)
    (hname : 2 ≤ (trimStr nm).length)
    (hskill : 2 ≤ (toLowerStr (trimStr sk)).length)
    (hloc : 2 ≤ (trimStr loc).length)
    (hfin : trimStr (toLowerStr fin) = "skip" ∨ trimStr (toLowerStr fin) = "no")
    (hfresh : (ws.find? fun w => w.phoneNumber == stripJidSuffix phone) = none) :
    (runRegFlow phone lang [r0, nm, sk, loc, fin] none ws).1 = none ∧
    (runRegFlow phone lang [r0, nm, sk, loc, fin] none ws).2 =
      ws ++ [⟨stripJidSuffix phone, some (trimStr nm),
             some (toLowerStr (trimStr sk)), some (trimStr loc),
             (if lang = "" then "en" else lang), none, "worker",
             isOnboardedDefault, none⟩] := by
  have h1 : ¬ (trimStr nm).length < 2 := by omega
  have h2 : ¬ (toLowerStr (trimStr sk)).length < 2 := by omega
  have h3 : ¬ (trimStr loc).length < 2 := by omega
  have hstep : runRegFlow phone lang [r0, nm, sk, loc, fin] none ws =
      (let r := handleRegistration phone fin
        (some ⟨"awaiting_id_image",
          { preferredLanguage := some lang, name := some (trimStr nm),
            skill := some (toLowerStr (trimStr sk)),
            location := some (trimStr loc), idImageUrl := none }, "worker"⟩)
        lang ws
       (r.state, r.workers)) := by
    simp only [runRegFlow, List.foldl]
    simp [handleRegistration, h1, h2, h3]
  rw [hstep]
  rcases hfin with hf | hf <;>
    · simp only [handleRegistration, hf]
      simp [completeRegistration, hfresh, jsOrStr, jsOrNull]
      by_cases hl : lang = "" <;> simp [hl]

theorem registration_flow_terminates_witness :
    2 ≤ (trimStr "Ravi").length ∧
    (runRegFlow "911@s.whatsapp.net" "hi" ["hello", "Ravi", "Mason", " Mumbai ", " SKIP "]
        none []).1 = none ∧
    (runRegFlow "911@s.whatsapp.net" "hi" ["hello", "Ravi", "Mason", " Mumbai ", " SKIP "]
        none []).2 =
      [] ++ [⟨stripJidSuffix "911@s.whatsapp.net", some (trimStr "Ravi"),
             some (toLowerStr (trimStr "Mason")), some (trimStr " Mumbai "),
             (if ("hi" : String) = "" then "en" else "hi"), none, "worker",
             isOnboardedDefault, none⟩] :=
  ⟨by decide,
   (registration_flow_terminates "911@s.whatsapp.net" "hi" "hello" "Ravi" "Mason"
     " Mumbai " " SKIP " [] (by decide) (by decide) (by decide) (Or.inl (by decide))
     (by decide)).1,
   (registration_flow_terminates "911@s.whatsapp.net" "hi" "hello" "Ravi" "Mason"
     " Mumbai " " SKIP " [] (by decide) (by decide) (by decide) (Or.inl (by decide))
     (by decide)).2⟩

/-! ## Claude-tool backend (src/backend/services/broadcastQueue.ts) -/

/-- A row of the `workers` table of the Claude-tool backend. -/
structure BWorker where
  phoneNumber : String
  name : Option String
  city : Option String
  skill : Option String
  preferredLanguage : String
  aadhaarNumber : Option String
  panNumber : Option String
  role : String
  isOnboarded : Bool
  availableFrom : Option Int
  deriving Repr, DecidableEq

/-- A row of the `jobs` table of the Claude-tool backend. -/
structure BJob where
  id : String
  contractorPhone : String
  title : Option String
  skillRequired : String
  wage : String
  city : String
  location : Option String
  meetingPoint : Option String
  workersNeeded : Int
  startDate : Int
  endDate : Int
  insuranceProvided : Bool
  status : String
  deriving Repr, DecidableEq

/-- A row of the `applications` table of the Claude-tool backend. -/
structure BApplication where
  id : String
  jobId : String
  workerPhone : String
  status : String
  otp : Option String
  otpExpiresAt : Option Int
  attendanceStatus : String
  attendanceMarkedAt : Option Int
  cancelledBy : Option String
  deriving Repr, DecidableEq

/-- The store touched by the `verify_otp` and `cancel_application` tools. -/
structure BotState where
  workers : List BWorker
  jobs : List BJob
  applications : List BApplication
  deriving Repr, DecidableEq

/-- Tool outcome: success flag and user-facing message. -/
structure ToolResult where
  success : Bool
  message : String
  deriving Repr, DecidableEq

def invalidOtpMsg : String :=
  "Invalid or expired OTP. Make sure the worker gave you the correct OTP."

def otpVerifiedMsg : String := "OTP verified! Attendance confirmed."

/-- The `findFirst` filter of `verify_otp` (broadcastQueue.ts, lines 695-703):
stored code equals the submitted code, status WORKER_ACCEPTED, expiry at or
after now (a null expiry never satisfies `gte`), and the application's job
belongs to the submitting contractor. -/
def otpCriteria (s : BotState) (contractorPhone otp : String) (now : Int)
    (a : BApplication) : Bool :=
  a.otp == some otp && a.status == "WORKER_ACCEPTED" &&
  (match a.otpExpiresAt with
   | some t => decide (now ≤ t)
   | none => false) &&
  (match s.jobs.find? (fun j => j.id == a.jobId) with
   | some j => j.contractorPhone == contractorPhone
   | none => false)

/-- `verify_otp` (broadcastQueue.ts, lines 692-761): find the first matching
application; on a miss report the invalid/expired message; on a match set
status CONTRACTOR_CONFIRMED, attendance PRESENT with the timestamp, clear the
code and its expiry, set the worker's `availableFrom` to the job's end date,
and mark the job FILLED when the confirmed count reaches `workersNeeded`.
The defensive `none` job branch is unreachable because the criteria require
the job to exist. Notifications and the returned worker details are outside
the modelled state. -/
def verifyOtp (contractorPhone otp : String) (now : Int) (s : BotState) :
    ToolResult × BotState :=
  match s.applications.find? (otpCriteria s contractorPhone otp now) with
  | none => (⟨false, invalidOtpMsg⟩, s)
  | some a =>
    match s.jobs.find? (fun j => j.id == a.jobId) with
    | none => (⟨false, invalidOtpMsg⟩, s)
    | some job =>
      let apps' := s.applications.map fun x =>
        if x.id == a.id then
          { x with status := "CONTRACTOR_CONFIRMED",
                   attendanceStatus := "PRESENT",
                   attendanceMarkedAt := some now,
                   otp := none, otpExpiresAt := none }
        else x
      let workers' := s.workers.map fun w =>
        if w.phoneNumber == a.workerPhone then
          { w with availableFrom := some job.endDate }
        else w
      let confirmedCount :=
        (apps'.filter fun x => x.jobId == a.jobId && x.status == "CONTRACTOR_CONFIRMED").length
      let jobs' :=
        if job.workersNeeded ≤ (confirmedCount : Int) then
          s.jobs.map fun j => if j.id == a.jobId then { j with status := "FILLED" } else j
        else s.jobs
      (⟨true, otpVerifiedMsg⟩, ⟨workers', jobs', apps'⟩)

def appNotFoundMsg : String := "Application not found"

def cancelRejectedMsg : String :=
  "Cannot cancel — work has already been confirmed or completed"

def cancelOkMsg : String := "Application cancelled. Other party notified."

/-- `cancel_application` (broadcastQueue.ts, lines 772-820): look up the
application by its `(jobId, workerPhone)` key; refuse when it is already
CONTRACTOR_CONFIRMED or COMPLETED; otherwise set status CANCELLED, record the
cancelling party and clear the OTP and its expiry. Notifications are outside
the modelled state. -/
def cancelApplication (jobId workerPhone cancelledBy : String) (s : BotState) :
    ToolResult × BotState :=
  match s.applications.find? (fun x => x.jobId == jobId && x.workerPhone == workerPhone) with
  | none => (⟨false, appNotFoundMsg⟩, s)
  | some a =>
    if a.status == "CONTRACTOR_CONFIRMED" || a.status == "COMPLETED" then
      (⟨false, cancelRejectedMsg⟩, s)
    else
      (⟨true, cancelOkMsg⟩,
       { s with applications := s.applications.map fun x =>
           if x.id == a.id then
             { x with status := "CANCELLED", cancelledBy := some cancelledBy,
                      otp := none, otpExpiresAt := none }
           else x })

theorem otpCriteria_parts {s : BotState} {cp code : String} {now : Int}
    {a : BApplication} (h : otpCriteria s cp code now a = true) :
    a.otp = some code ∧ a.status = "WORKER_ACCEPTED" ∧
    (∃ t : Int, a.otpExpiresAt = some t ∧ now ≤ t) ∧
    ∃ j : BJob, s.jobs.find? (fun x => x.id == a.jobId) = some j ∧
      j.contractorPhone = cp := by
  unfold otpCriteria at h
  simp only [Bool.and_eq_true, beq_iff_eq] at h
  obtain ⟨⟨⟨h1, h2⟩, h3⟩, h4⟩ := h
  refine ⟨h1, h2, ?_, ?_⟩
  · cases he : a.otpExpiresAt with
    | none => rw [he] at h3; cases h3
    | some t => rw [he] at h3; exact ⟨t, rfl, by simpa using h3⟩
  · cases hj : s.jobs.find? (fun x => x.id == a.jobId) with
    | none => rw [hj] at h4; cases h4
    | some j => rw [hj] at h4; exact ⟨j, rfl, by simpa using h4⟩

/-! ### Claim C2 -/

/-- Specification of one `verifyOtp` call: success exactly on an application
matching code, WORKER_ACCEPTED status, unexpired stamp and contractor
ownership of the job; on a match the application is confirmed (PRESENT
attendance with recorded timestamp, code and expiry cleared) and the worker's
availability timestamp is set to the job's end date; a code whose stored
expiry has passed fails even when the digits match. -/
def VerifyOtpSpec (s : BotState) (cp code : String) (now : Int) : Prop :=
  ((verifyOtp cp code now s).1.success = true ↔
    ∃ a ∈ s.applications, otpCriteria s cp code now a = true) ∧
  (∀ a : BApplication,
    s.applications.find? (otpCriteria s cp code now) = some a →
    ∃ j : BJob, s.jobs.find? (fun x => x.id == a.jobId) = some j ∧
      j.contractorPhone = cp ∧
      (∃ a' : BApplication,
        (verifyOtp cp code now s).2.applications =
          s.applications.map (fun x => if x.id == a.id then a' else x) ∧
        a'.status = "CONTRACTOR_CONFIRMED" ∧
        a'.attendanceStatus = "PRESENT" ∧
        a'.attendanceMarkedAt = some now ∧
        a'.otp = none ∧ a'.otpExpiresAt = none ∧
        a'.jobId = a.jobId ∧ a'.workerPhone = a.workerPhone) ∧
      (verifyOtp cp code now s).2.workers =
        s.workers.map (fun w =>
          if w.phoneNumber == a.workerPhone then
            { w with availableFrom := some j.endDate }
          else w)) ∧
  ((∀ a ∈ s.applications, a.otp = some code →
      ∀ t : Int, a.otpExpiresAt = some t → t < now) →
    (verifyOtp cp code now s).1.success = false)

/-- C2: `verifyOtp` succeeds iff an application matches the submitted code
with status WORKER_ACCEPTED, an expiry at or after now, and a job owned by
the submitting contractor; on success that application becomes
CONTRACTOR_CONFIRMED with attendance PRESENT and a recorded timestamp, its
stored code is cleared, and the worker's availability timestamp is set to the
job's end date; an expired code fails even when the digits match. -/
theorem verify_otp_spec (s : BotState) (cp code : String) (now : Int)
    (h : (s.applications.map BApplication.id).Nodup) :
    VerifyOtpSpec s cp code now := by
  refine ⟨?_, ?_, ?_⟩
  · cases hf : s.applications.find? (otpCriteria s cp code now) with
    | none =>
        have hs : (verifyOtp cp code now s).1.success = false := by
          simp [verifyOtp, hf]
        constructor
        · intro hTrue; rw [hs] at hTrue; cases hTrue
        · rintro ⟨a, ha, hpa⟩
          exact absurd hpa (List.find?_eq_none.mp hf a ha)
    | some a =>
        have hpa := List.find?_some hf
        obtain ⟨-, -, -, j, hj, -⟩ := otpCriteria_parts hpa
        have hs : (verifyOtp cp code now s).1.success = true := by
          simp [verifyOtp, hf, hj]
        exact ⟨fun _ => ⟨a, List.mem_of_find?_eq_some hf, hpa⟩, fun _ => hs⟩
  · intro a hfind
    have hpa := List.find?_some hfind
    have hmem := List.mem_of_find?_eq_some hfind
    obtain ⟨-, -, -, j, hj, hjc⟩ := otpCriteria_parts hpa
    refine ⟨j, hj, hjc,
      ⟨⟨a.id, a.jobId, a.workerPhone, "CONTRACTOR_CONFIRMED", none, none,
        "PRESENT", some now, a.cancelledBy⟩,
       ?_, rfl, rfl, rfl, rfl, rfl, rfl, rfl⟩, ?_⟩
    · have : (verifyOtp cp code now s).2.applications =
          s.applications.map (fun x =>
            if x.id == a.id then
              { x with status := "CONTRACTOR_CONFIRMED",
                       attendanceStatus := "PRESENT",
                       attendanceMarkedAt := some now,
                       otp := none, otpExpiresAt := none }
            else x) := by
        simp [verifyOtp, hfind, hj]
      rw [this]
      refine List.map_congr_left ?_
      intro x hx
      by_cases hid : x.id = a.id
      · have : x = a := List.inj_on_of_nodup_map h hx hmem hid
        subst this; simp
      · simp [hid]
    · simp [verifyOtp, hfind, hj]
  · intro hexp
    cases hf : s.applications.find? (otpCriteria s cp code now) with
    | none => simp [verifyOtp, hf]
    | some a =>
        exfalso
        have hpa := List.find?_some hf
        have hmem := List.mem_of_find?_eq_some hf
        obtain ⟨h1, -, ⟨t, ht, hnt⟩, -⟩ := otpCriteria_parts hpa
        have := hexp a hmem h1 t ht
        omega

def botWorker : BWorker :=
  ⟨"91w", some "Ravi", some "Mumbai", some "mason", "en", some "234567891234",
   none, "worker", true, none⟩

def botJob : BJob :=
  ⟨"j1", "92c", some "T", "mason", "700", "Mumbai", none, none, 1, 10, 500,
   false, "OPEN"⟩

def botApp : BApplication :=
  ⟨"ap1", "j1", "91w", "WORKER_ACCEPTED", some "123456", some 100, "NOT_MARKED",
   none, none⟩

def botS : BotState := ⟨[botWorker], [botJob], [botApp]⟩

theorem verify_otp_spec_witness :
    (botS.applications.map BApplication.id).Nodup ∧
    VerifyOtpSpec botS "92c" "123456" 50 :=
  ⟨by decide, verify_otp_spec botS "92c" "123456" 50 (by decide)⟩

/-! ### Claim C3 -/

/-- C3: once `verifyOtp` has succeeded consuming an application (the unique
holder of the code), any second `verifyOtp` call with the same code — by any
contractor, at any time, also before the original expiry — fails with the
invalid/expired message. -/
theorem verify_otp_single_use (s : BotState) (cp cp2 code : String)
    (now now2 : Int) (a : BApplication)
    (hfind : s.applications.find? (otpCriteria s cp code now) = some a)
    (huniq : ∀ b ∈ s.applications, b.otp = some code → b.id = a.id) :
    (verifyOtp cp2 code now2 ((verifyOtp cp code now s).2)).1.success = false ∧
    (verifyOtp cp2 code now2 ((verifyOtp cp code now s).2)).1.message
      = invalidOtpMsg := by
  have hpa := List.find?_some hfind
  obtain ⟨-, -, -, j, hj, -⟩ := otpCriteria_parts hpa
  have happs : ((verifyOtp cp code now s).2).applications =
      s.applications.map (fun x =>
        if x.id == a.id then
          { x with status := "CONTRACTOR_CONFIRMED",
                   attendanceStatus := "PRESENT",
                   attendanceMarkedAt := some now,
                   otp := none, otpExpiresAt := none }
        else x) := by
    simp [verifyOtp, hfind, hj]
  have hnone : ((verifyOtp cp code now s).2).applications.find?
      (otpCriteria ((verifyOtp cp code now s).2) cp2 code now2) = none := by
    apply List.find?_eq_none.mpr
    intro x hx
    rw [happs] at hx
    simp only [List.mem_map] at hx
    obtain ⟨x0, hx0, hfx⟩ := hx
    intro hp
    have hotp : x.otp = some code := (otpCriteria_parts hp).1
    by_cases hid : x0.id = a.id
    · rw [← hfx] at hotp
      simp [hid] at hotp
    · have hxx : x = x0 := by rw [← hfx]; simp [hid]
      rw [hxx] at hotp
      exact hid (huniq x0 hx0 hotp)
  generalize hX : (verifyOtp cp code now s).2 = X at hnone ⊢
  constructor <;> simp [verifyOtp, hnone]

theorem verify_otp_single_use_witness :
    botS.applications.find? (otpCriteria botS "92c" "123456" 50) = some botApp ∧
    ((verifyOtp "92c" "123456" 60 ((verifyOtp "92c" "123456" 50 botS).2)).1.success
       = false ∧
     (verifyOtp "92c" "123456" 60 ((verifyOtp "92c" "123456" 50 botS).2)).1.message
       = invalidOtpMsg) :=
  ⟨by decide,
   verify_otp_single_use botS "92c" "92c" "123456" 50 60 botApp (by decide)
     (by decide)⟩

/-! ### Claim C9 -/

/-- C9: cancellation of an application that is strictly before
CONTRACTOR_CONFIRMED (status PENDING or WORKER_ACCEPTED) succeeds for either
party, sets status CANCELLED with the cancelling party recorded and clears
any pending OTP and its expiry; cancellation of a CONTRACTOR_CONFIRMED or
COMPLETED application is rejected and the store is left unchanged. -/
theorem cancel_application_spec (s : BotState) (jid w who : String)
    (a : BApplication)
    (h : (s.applications.map BApplication.id).Nodup)
    (hfind : s.applications.find?
      (fun x => x.jobId == jid && x.workerPhone == w) = some a) :
    ((a.status = "PENDING" ∨ a.status = "WORKER_ACCEPTED") →
      (cancelApplication jid w who s).1.success = true ∧
      (∃ a' : BApplication,
        (cancelApplication jid w who s).2.applications =
          s.applications.map (fun x => if x.id == a.id then a' else x) ∧
        a'.status = "CANCELLED" ∧ a'.cancelledBy = some who ∧
        a'.otp = none ∧ a'.otpExpiresAt = none ∧
        a'.jobId = a.jobId ∧ a'.workerPhone = a.workerPhone) ∧
      (cancelApplication jid w who s).2.jobs = s.jobs ∧
      (cancelApplication jid w who s).2.workers = s.workers) ∧
    ((a.status = "CONTRACTOR_CONFIRMED" ∨ a.status = "COMPLETED") →
      (cancelApplication jid w who s).1.success = false ∧
      (cancelApplication jid w who s).2 = s) := by
  have hmem := List.mem_of_find?_eq_some hfind
  constructor
  · intro hst
    have hcond : (a.status == "CONTRACTOR_CONFIRMED"
        || a.status == "COMPLETED") = false := by
      rcases hst with hst | hst <;> simp [hst]
    refine ⟨?_, ?_, ?_, ?_⟩
    · simp [cancelApplication, hfind, hcond]
    · refine ⟨⟨a.id, a.jobId, a.workerPhone, "CANCELLED", none, none,
        a.attendanceStatus, a.attendanceMarkedAt, some who⟩,
        ?_, rfl, rfl, rfl, rfl, rfl, rfl⟩
      have : (cancelApplication jid w who s).2.applications =
          s.applications.map (fun x =>
            if x.id == a.id then
              { x with status := "CANCELLED", cancelledBy := some who,
                       otp := none, otpExpiresAt := none }
            else x) := by
        simp [cancelApplication, hfind, hcond]
      rw [this]
      refine List.map_congr_left ?_
      intro x hx
      by_cases hid : x.id = a.id
      · have : x = a := List.inj_on_of_nodup_map h hx hmem hid
        subst this; simp
      · simp [hid]
    · simp [cancelApplication, hfind, hcond]
    · simp [cancelApplication, hfind, hcond]
  · intro hst
    have hcond : (a.status == "CONTRACTOR_CONFIRMED"
        || a.status == "COMPLETED") = true := by
      rcases hst with hst | hst <;> simp [hst]
    constructor <;> simp [cancelApplication, hfind, hcond]

def botAppConfirmed : BApplication :=
  ⟨"ap2", "j1", "91w", "CONTRACTOR_CONFIRMED", none, none, "PRESENT", some 50,
   none⟩

def botSConfirmed : BotState := ⟨[botWorker], [botJob], [botAppConfirmed]⟩

theorem cancel_application_spec_witness :
    (botApp.status = "PENDING" ∨ botApp.status = "WORKER_ACCEPTED") ∧
    ((cancelApplication "j1" "91w" "worker" botS).1.success = true ∧
     (∃ a' : BApplication,
       (cancelApplication "j1" "91w" "worker" botS).2.applications =
         botS.applications.map (fun x => if x.id == botApp.id then a' else x) ∧
       a'.status = "CANCELLED" ∧ a'.cancelledBy = some "worker" ∧
       a'.otp = none ∧ a'.otpExpiresAt = none ∧
       a'.jobId = botApp.jobId ∧ a'.workerPhone = botApp.workerPhone) ∧
     (cancelApplication "j1" "91w" "worker" botS).2.jobs = botS.jobs ∧
     (cancelApplication "j1" "91w" "worker" botS).2.workers = botS.workers) ∧
    (botAppConfirmed.status = "CONTRACTOR_CONFIRMED"
       ∨ botAppConfirmed.status = "COMPLETED") ∧
    ((cancelApplication "j1" "91w" "contractor" botSConfirmed).1.success = false ∧
     (cancelApplication "j1" "91w" "contractor" botSConfirmed).2 = botSConfirmed) :=
  ⟨Or.inr (by decide),
   (cancel_application_spec botS "j1" "91w" "worker" botApp (by decide)
     (by decide)).1 (Or.inr (by decide)),
   Or.inl (by decide),
   (cancel_application_spec botSConfirmed "j1" "91w" "contractor" botAppConfirmed
     (by decide) (by decide)).2 (Or.inl (by decide))⟩

end YourChowk
